import Mathlib

/-!
# Verification of the food-delivery backend core
Shallow embedding, in Lean 4, of the order lifecycle / rider workflow of the
`testing-backend-akshaya` Express + DynamoDB backend:
* `src/orders.js` — `createOrder`, `updateOrderStatus`, `assignRider`
* `src/riderAuth.js` — `registerRider` (dual-write registration)
* `src/firebaseService.js` — `updateRiderStatus` (riders handler), `sendNotificationToRider`

DynamoDB is modelled as association-list tables inside a single `DBState`.
Timestamps are `Nat` (milliseconds; ISO-string comparison on the wire agrees
with numeric order). Request-body fields that may be absent are `Option`s,
with JavaScript truthiness made explicit (`jsTruthyStr`, `jsTruthyNum`):
an absent field, an empty string and the number `0` are falsy.
-/

namespace Backend

/-- JS truthiness of an optional string field: absent (`undefined`/`null`)
and the empty string are falsy. -/
def jsTruthyStr : Option String → Bool
  | none => false
  | some s => s ≠ ""

/-- JS truthiness of an optional numeric field: absent and `0` are falsy.
(The embedding takes numeric inputs, so `NaN` does not arise.) -/
def jsTruthyNum : Option ℚ → Bool
  | none => false
  | some q => q ≠ 0

/-- JS truthiness of an optional array field: absent is falsy, any array
object — including the empty array `[]` — is truthy. -/
def jsTruthyList {α : Type} : Option (List α) → Bool
  | none => false
  | some _ => true

/-- JS `a || b` on an optional string `a` with string fallback `b`:
returns `b` when `a` is absent or empty. -/
def jsOrStr (a : Option String) (b : String) : String :=
  match a with
  | none => b
  | some s => if s = "" then b else s

/-- JS `parseFloat` applied to an already-numeric value is that value;
the embedding takes the request's amount as a number. -/
def parseFloatNum (q : ℚ) : ℚ := q

/-! ## Record-store primitives (DynamoDB DocumentClient, per table) -/

/-- Store read `DocumentClient.get`: first binding of the key in the table, if any. -/
def getItem {α : Type} : List (String × α) → String → Option α
  | [], _ => none
  | (k2, v) :: rest, k => if k2 = k then some v else getItem rest k

/-- Remove every binding of a key (helper for `putItem`'s overwrite). -/
def eraseKey {α : Type} : List (String × α) → String → List (String × α)
  | [], _ => []
  | (k2, v) :: rest, k =>
      if k2 = k then eraseKey rest k else (k2, v) :: eraseKey rest k

/-- Store write `DocumentClient.put` without a condition: overwrites any binding of the key. -/
def putItem {α : Type} (db : List (String × α)) (k : String) (v : α) :
    List (String × α) :=
  (k, v) :: eraseKey db k

/-- Store update `DocumentClient.update` with SET clauses `f`, applied to the stored item.
(All handlers below only issue it after a successful existence read.) -/
def updItem {α : Type} : List (String × α) → String → (α → α) → List (String × α)
  | [], _, _ => []
  | (k2, v) :: rest, k, f =>
      if k2 = k then (k2, f v) :: updItem rest k f
      else (k2, v) :: updItem rest k f

theorem getItem_putItem_self {α : Type} (db : List (String × α)) (k : String) (v : α) :
    getItem (putItem db k v) k = some v := by
  simp [putItem, getItem]

theorem getItem_eraseKey {α : Type} (db : List (String × α)) (k k' : String)
    (h : k ≠ k') : getItem (eraseKey db k) k' = getItem db k' := by
  induction db with
  | nil => rfl
  | cons p rest ih =>
    obtain ⟨a, b⟩ := p
    by_cases ha : a = k
    · subst ha
      simp [eraseKey, getItem, h, ih]
    · simp [eraseKey, getItem, ha, ih]

theorem getItem_putItem_other {α : Type} (db : List (String × α)) (k k' : String)
    (v : α) (h : k ≠ k') : getItem (putItem db k v) k' = getItem db k' := by
  simp [putItem, getItem, h, getItem_eraseKey db k k' h]

theorem getItem_updItem_self {α : Type} (db : List (String × α)) (k : String)
    (f : α → α) : getItem (updItem db k f) k = (getItem db k).map f := by
  induction db with
  | nil => rfl
  | cons p rest ih =>
    obtain ⟨a, b⟩ := p
    by_cases ha : a = k
    · subst ha
      simp [updItem, getItem]
    · simp [updItem, getItem, ha, ih]

theorem getItem_updItem_other {α : Type} (db : List (String × α)) (k k' : String)
    (f : α → α) (h : k ≠ k') : getItem (updItem db k f) k' = getItem db k' := by
  induction db with
  | nil => rfl
  | cons p rest ih =>
    obtain ⟨a, b⟩ := p
    by_cases ha : a = k
    · subst ha
      simp [updItem, getItem, h, ih]
    · simp [updItem, getItem, ha, ih]

/-! ## Data model -/

/-- Embedded customer snapshot stored inside an order
(`orders.js` `createOrder`, copied at creation time). -/
structure Customer where
  name : String
  phone : String
  email : String
  address : String
  deriving Repr, DecidableEq

/-- A line item of an order. The core logic never inspects items, so they are
opaque (name, quantity). -/
structure LineItem where
  name : String
  qty : Nat
  deriving Repr, DecidableEq

/-- Order record as written by `orders.js`. -/
structure OrderRec where
  id : String
  items : List LineItem
  customer : Customer
  status : String
  riderId : Option String
  riderName : Option String
  totalAmount : ℚ
  paymentMethod : String
  notes : String
  createdAt : Nat
  updatedAt : Nat
  deliveredAt : Option Nat
  deriving Repr, DecidableEq

/-- Rider record as written by `riderAuth.js` `registerRider` / updated by the
riders handlers. `fcmToken` is absent (`none`) until `updateFCMToken` sets it. -/
structure RiderRec where
  id : String
  name : String
  phone : String
  vehicleType : String
  vehicleNumber : String
  status : String
  currentOrderId : Option String
  totalDeliveries : Int
  rating : ℚ
  isActive : Bool
  fcmToken : Option String
  email : Option String
  joinedAt : Nat
  updatedAt : Nat
  deriving Repr, DecidableEq

/-- User/identity record as written by `riderAuth.js` `registerRider`
(users table, keyed by phone). -/
structure UserRec where
  phone : String
  name : String
  password : String
  role : String
  riderId : Option String
  isActive : Bool
  email : Option String
  createdAt : Nat
  updatedAt : Nat
  deriving Repr, DecidableEq

/-- The full record store: the three DynamoDB tables the core touches. -/
structure DBState where
  users : List (String × UserRec)
  riders : List (String × RiderRec)
  orders : List (String × OrderRec)
  deriving Repr, DecidableEq

/-- Typed failure classification of non-2xx handler responses (§7 of the spec). -/
inductive ApiError where
  | ValidationError (msg : String)
  | NotFoundError (msg : String)
  | ConflictError (msg : String)
  | ServerError (msg : String)
  deriving Repr, DecidableEq

/-- Valid order statuses (`ORDER_STATUSES` in `orders.js`). -/
def ORDER_STATUSES : List String := ["placed", "inProgress", "delivered", "cancelled"]

/-- Valid rider statuses (`RIDER_STATUSES` in the riders handler file). -/
def RIDER_STATUSES : List String := ["available", "on-delivery", "offline"]

/-! ## Order Ledger (`orders.js`) -/

/-- Customer object of a create-order request (`req.body.customer`);
every field may be absent. -/
structure CustomerReq where
  name : Option String
  phone : Option String
  email : Option String
  address : Option String
  deriving Repr, DecidableEq

/-- Body of a create-order request (`req.body` in `createOrder`). -/
structure CreateOrderReq where
  items : Option (List LineItem)
  customer : Option CustomerReq
  totalAmount : Option ℚ
  paymentMethod : Option String
  deliveryAddress : Option String
  notes : Option String
  deriving Repr, DecidableEq

/-- Handler `createOrder` (`orders.js`): validates `!items || !customer || !totalAmount`
and `!customer.name || !customer.phone`, then writes a fresh `placed` order
with id `ORD<now>`. -/
def createOrder (st : DBState) (now : Nat) (req : CreateOrderReq) :
    Except ApiError OrderRec × DBState :=
  match req.items, req.customer, req.totalAmount with
  | some items, some customer, some totalAmount =>
    if totalAmount = 0 then
      (.error (.ValidationError "Items, customer info, and total amount are required"), st)
    else if ¬ (jsTruthyStr customer.name ∧ jsTruthyStr customer.phone) then
      (.error (.ValidationError "Customer name and phone are required"), st)
    else
      let id := "ORD" ++ toString now
      let order : OrderRec :=
        { id := id
          items := items
          customer :=
            { name := customer.name.getD ""
              phone := customer.phone.getD ""
              email := jsOrStr customer.email ""
              address := jsOrStr customer.address (jsOrStr req.deliveryAddress "") }
          status := "placed"
          riderId := none
          riderName := none
          totalAmount := parseFloatNum totalAmount
          paymentMethod := jsOrStr req.paymentMethod "Cash"
          notes := jsOrStr req.notes ""
          createdAt := now
          updatedAt := now
          deliveredAt := none }
      (.ok order, { st with orders := putItem st.orders id order })
  | _, _, _ =>
      (.error (.ValidationError "Items, customer info, and total amount are required"), st)

/-- Handler `updateOrderStatus` (`orders.js`): rejects a status outside
`ORDER_STATUSES`, 404s when the order is absent, otherwise SETs status and
updatedAt, adding `deliveredAt = now` exactly when the new status is
`delivered`. -/
def updateOrderStatus (st : DBState) (now : Nat) (id : String) (status : String) :
    Except ApiError OrderRec × DBState :=
  if status ∈ ORDER_STATUSES then
    match getItem st.orders id with
    | none => (.error (.NotFoundError "Order not found"), st)
    | some existing =>
      let f : OrderRec → OrderRec := fun o =>
        if status = "delivered" then
          { o with status := status, updatedAt := now, deliveredAt := some now }
        else
          { o with status := status, updatedAt := now }
      (.ok (f existing), { st with orders := updItem st.orders id f })
  else
    (.error (.ValidationError "Invalid status"), st)

/-- Handler `assignRider` (`orders.js`): requires a truthy riderId, 404s when the
order is absent, otherwise SETs riderId, riderName (defaulting to
"Assigned Rider"), status `inProgress` and updatedAt. The handler touches
only the orders table. -/
def assignRider (st : DBState) (now : Nat) (id : String)
    (riderId : Option String) (riderName : Option String) :
    Except ApiError OrderRec × DBState :=
  if jsTruthyStr riderId then
    match getItem st.orders id with
    | none => (.error (.NotFoundError "Order not found"), st)
    | some existing =>
      let f : OrderRec → OrderRec := fun o =>
        { o with riderId := riderId
                 riderName := some (jsOrStr riderName "Assigned Rider")
                 status := "inProgress"
                 updatedAt := now }
      (.ok (f existing), { st with orders := updItem st.orders id f })
  else
    (.error (.ValidationError "Rider ID is required"), st)

/-! ## Rider Directory status transitions (riders handler) -/

/-- Handler `updateRiderStatus` (riders handler): rejects a status outside
`RIDER_STATUSES`, 404s when the rider is absent; SETs status and updatedAt;
additionally SETs currentOrderId when moving to `on-delivery` with a truthy
currentOrderId in the body; and when moving to `available`/`offline` while
the *stored* status was `on-delivery`, clears currentOrderId and adds 1 to
totalDeliveries in the same update expression. -/
def updateRiderStatus (st : DBState) (now : Nat) (id : String)
    (status : String) (currentOrderId : Option String) :
    Except ApiError RiderRec × DBState :=
  if status ∈ RIDER_STATUSES then
    match getItem st.riders id with
    | none => (.error (.NotFoundError "Rider not found"), st)
    | some existing =>
      let f : RiderRec → RiderRec := fun r =>
        let r1 := { r with status := status, updatedAt := now }
        let r2 :=
          if status = "on-delivery" ∧ jsTruthyStr currentOrderId then
            { r1 with currentOrderId := currentOrderId }
          else r1
        if (status = "available" ∨ status = "offline") ∧
            existing.status = "on-delivery" then
          { r2 with currentOrderId := none
                    totalDeliveries := r2.totalDeliveries + 1 }
        else r2
      (.ok (f existing), { st with riders := updItem st.riders id f })
  else
    (.error (.ValidationError "Invalid status"), st)

/-! ## Dual-write rider registration (`riderAuth.js`) -/

/-- Body of a rider-registration request (`req.body` in `registerRider`). -/
structure RegisterRiderReq where
  name : Option String
  phone : Option String
  password : Option String
  email : Option String
  vehicleType : Option String
  vehicleNumber : Option String
  deriving Repr, DecidableEq

/-- The five required registration fields, as the code tests them
(`!name || !phone || !password || !vehicleType || !vehicleNumber`). -/
def registerReqValid (req : RegisterRiderReq) : Bool :=
  jsTruthyStr req.name && jsTruthyStr req.phone && jsTruthyStr req.password &&
    jsTruthyStr req.vehicleType && jsTruthyStr req.vehicleNumber

/-- Hashing `bcrypt.hash` is an external collaborator; modelled as an injective
tagging of the plaintext (no claim depends on its structure). -/
def hashPassword (p : String) : String := "$2a$10$" ++ p

/-- The `TransactWriteItems` call issued by `registerRider`: Put of the user
record conditioned on `attribute_not_exists(phone)` plus an unconditional Put
of the rider record. DynamoDB transaction semantics: if any condition fails,
the whole transaction aborts and neither write is applied. -/
def transactPutUserAndRider (st : DBState) (phone : String) (u : UserRec)
    (riderId : String) (r : RiderRec) : Except Unit DBState :=
  if (getItem st.users phone).isSome then
    .error ()
  else
    .ok { st with users := putItem st.users phone u
                  riders := putItem st.riders riderId r }

/-- Handler `registerRider` (`riderAuth.js`): validates the five required fields,
pre-checks the users table for the phone (409 Conflict when present), then
issues the transactional dual write; a `ConditionalCheckFailed` raised by the
transaction lands in the catch-all and is surfaced as a 500. -/
def registerRider (st : DBState) (now : Nat) (req : RegisterRiderReq) :
    Except ApiError (UserRec × RiderRec) × DBState :=
  if registerReqValid req then
    let phone := req.phone.getD ""
    match getItem st.users phone with
    | some _ =>
        (.error (.ConflictError "User with this phone number already exists"), st)
    | none =>
      let riderId := "RDR" ++ toString now
      let userRecord : UserRec :=
        { phone := phone
          name := req.name.getD ""
          password := hashPassword (req.password.getD "")
          role := "rider"
          riderId := some riderId
          isActive := true
          email := if jsTruthyStr req.email then req.email else none
          createdAt := now
          updatedAt := now }
      let riderRecord : RiderRec :=
        { id := riderId
          name := req.name.getD ""
          phone := phone
          vehicleType := req.vehicleType.getD ""
          vehicleNumber := req.vehicleNumber.getD ""
          status := "offline"
          currentOrderId := none
          totalDeliveries := 0
          rating := 5
          isActive := true
          fcmToken := none
          email := if jsTruthyStr req.email then req.email else none
          joinedAt := now
          updatedAt := now }
      match transactPutUserAndRider st phone userRecord riderId riderRecord with
      | .error _ => (.error (.ServerError "Registration failed"), st)
      | .ok st2 => (.ok (userRecord, riderRecord), st2)
  else
    (.error (.ValidationError
      "Name, phone, password, vehicle type, and vehicle number are required"), st)

/-! ## Push-notification dispatch (`firebaseService.js`) -/

/-- Outcome of the one remote call `admin.messaging().send(message)`:
either a message-id receipt or a thrown delivery error. -/
inductive SendOutcome where
  | receipt (messageId : String)
  | failure (errMsg : String)
  deriving Repr, DecidableEq

/-- Dispatch `sendNotificationToRider` (`firebaseService.js`). Environment inputs:
whether the Firebase app was initialized at module load, and whether the
lazy re-initialization attempt succeeds. The result type records thrown
exceptions as `.error`; the body catches every delivery failure, so the
theorems show `.error` is unreachable. -/
def sendNotificationToRider (initialized reinitSucceeds : Bool)
    (fcmToken : Option String) (_title _body : String)
    (sendResult : SendOutcome) : Except String (Option String) :=
  if initialized = false ∧ reinitSucceeds = false then
    -- "Cannot send notification: Firebase not initialized." → return null
    .ok none
  else if ¬ jsTruthyStr fcmToken then
    -- "No FCM token provided for notification" → return null
    .ok none
  else
    match sendResult with
    | .receipt r => .ok (some r)
    | .failure _ =>
        -- catch block: log "Error sending notification" and return null
        .ok none

/-! ## Sample data for concrete witnesses -/

/-- An empty record store. -/
def emptyDB : DBState := { users := [], riders := [], orders := [] }

/-- A sample stored order in `placed` state. -/
def sampleOrder : OrderRec :=
  { id := "ORD100"
    items := [{ name := "Thali", qty := 1 }]
    customer := { name := "A", phone := "9999999999", email := "", address := "" }
    status := "placed"
    riderId := none
    riderName := none
    totalAmount := 150
    paymentMethod := "Cash"
    notes := ""
    createdAt := 100
    updatedAt := 100
    deliveredAt := none }

/-- A sample stored order already in `delivered` state. -/
def sampleDeliveredOrder : OrderRec :=
  { sampleOrder with id := "ORD200", status := "delivered",
                     createdAt := 200, updatedAt := 250, deliveredAt := some 250 }

/-- A sample stored rider currently on a delivery. -/
def sampleRider : RiderRec :=
  { id := "RDR300"
    name := "R"
    phone := "8888888888"
    vehicleType := "Bike"
    vehicleNumber := "KA01AB1234"
    status := "on-delivery"
    currentOrderId := some "ORD100"
    totalDeliveries := 3
    rating := 5
    isActive := true
    fcmToken := none
    email := none
    joinedAt := 10
    updatedAt := 10 }

/-- A store holding `sampleOrder`, `sampleDeliveredOrder` and `sampleRider`. -/
def sampleDB : DBState :=
  { users := []
    riders := [("RDR300", sampleRider)]
    orders := [("ORD100", sampleOrder), ("ORD200", sampleDeliveredOrder)] }

/-- Request used by the C7 witness: one Thali, customer A/9999999999,
amount 150. -/
def sampleCreateReq : CreateOrderReq :=
  { items := some [{ name := "Thali", qty := 1 }]
    customer := some { name := some "A", phone := some "9999999999",
                       email := none, address := none }
    totalAmount := some 150
    paymentMethod := none
    deliveryAddress := none
    notes := none }

/-- Create-order request with a present-but-empty items array (and otherwise
valid fields), used to refute C3 as stated. -/
def cexEmptyItemsReq : CreateOrderReq :=
  { items := some []
    customer := some { name := some "A", phone := some "9999999999",
                       email := none, address := none }
    totalAmount := some 150
    paymentMethod := none
    deliveryAddress := none
    notes := none }

/-- A well-formed rider registration request (all five required fields). -/
def sampleRegReq : RegisterRiderReq :=
  { name := some "R"
    phone := some "8888888888"
    password := some "secret1"
    email := none
    vehicleType := some "Bike"
    vehicleNumber := some "KA01AB1234" }

/-- The store after a first successful registration of `sampleRegReq`. -/
def dbAfterFirstReg : DBState := (registerRider emptyDB 50 sampleRegReq).2

/-! ## Claim theorems -/

/-- C9: the push-notification dispatch never propagates an error to its
caller: for every environment and delivery outcome, `sendNotificationToRider`
returns `.ok` — either the delivery receipt or `null` — and in particular a
missing token yields `null` (no-op) and a thrown delivery failure is caught
and yields `null`. -/
theorem sendNotificationToRider_total (initialized reinitSucceeds : Bool)
    (fcmToken : Option String) (title body : String) (sendResult : SendOutcome) :
    ∃ r, sendNotificationToRider initialized reinitSucceeds fcmToken title body
        sendResult = .ok r ∧
      (r = none ∨ ∃ m, sendResult = .receipt m ∧ r = some m) ∧
      (jsTruthyStr fcmToken = false → r = none) ∧
      (∀ e, sendResult = .failure e → r = none) := by
  unfold sendNotificationToRider
  by_cases hinit : initialized = false ∧ reinitSucceeds = false
  · exact ⟨none, by simp [hinit], Or.inl rfl, fun _ => rfl, fun _ _ => rfl⟩
  · by_cases htok : jsTruthyStr fcmToken
    · cases sendResult with
      | receipt m =>
          exact ⟨some m, by simp [hinit, htok], Or.inr ⟨m, rfl, rfl⟩,
            by simp [htok], by simp⟩
      | failure e =>
          exact ⟨none, by simp [hinit, htok], Or.inl rfl, fun _ => rfl, fun _ _ => rfl⟩
    · exact ⟨none, by simp [hinit, htok], Or.inl rfl, fun _ => rfl, fun _ _ => rfl⟩

/-- C9 witness: a delivery failure with a valid token is swallowed and
surfaced as `null`. -/
theorem sendNotificationToRider_total_witness :
    sendNotificationToRider true true (some "tok") "New Order" "Pickup now"
      (.failure "socket hang up") = .ok none := by
  obtain ⟨r, h1, _, _, h4⟩ :=
    sendNotificationToRider_total true true (some "tok") "New Order" "Pickup now"
      (.failure "socket hang up")
  rw [h4 "socket hang up" rfl] at h1
  exact h1

/-- C10: updating an existing rider's status to `on-delivery` without a
currentOrderId in the body changes only `status` and `updatedAt`: the stored
record keeps its previous `currentOrderId` and `totalDeliveries` (and every
other field), both in the returned record and in the store. -/
theorem updateRiderStatus_onDelivery_frame (st : DBState) (now : Nat)
    (id : String) (r : RiderRec) (h : getItem st.riders id = some r) :
    (updateRiderStatus st now id "on-delivery" none).1 =
      .ok { r with status := "on-delivery", updatedAt := now } ∧
    getItem (updateRiderStatus st now id "on-delivery" none).2.riders id =
      some { r with status := "on-delivery", updatedAt := now } := by
  have hmem : ("on-delivery" : String) ∈ RIDER_STATUSES := by decide
  constructor
  · simp [updateRiderStatus, hmem, h, jsTruthyStr]
  · simp [updateRiderStatus, hmem, h, jsTruthyStr, getItem_updItem_self]

/-- C10 witness: `sampleRider` (which has a stored currentOrderId and 3
deliveries) keeps both across an `on-delivery` update with no order id. -/
theorem updateRiderStatus_onDelivery_frame_witness :
    (updateRiderStatus sampleDB 11 "RDR300" "on-delivery" none).1 =
      .ok { sampleRider with status := "on-delivery", updatedAt := 11 } ∧
    getItem (updateRiderStatus sampleDB 11 "RDR300" "on-delivery" none).2.riders
        "RDR300" =
      some { sampleRider with status := "on-delivery", updatedAt := 11 } :=
  updateRiderStatus_onDelivery_frame sampleDB 11 "RDR300" sampleRider (by decide)

/-- C8: order-status update enforces no restriction on status regression —
for every existing order and every valid target status the update succeeds
(witness: `delivered → placed`). -/
theorem updateOrderStatus_regression_allowed (st : DBState) (now : Nat)
    (id : String) (o : OrderRec) (s : String)
    (h : getItem st.orders id = some o) (hs : s ∈ ORDER_STATUSES) :
    ((updateOrderStatus st now id s).1).isOk = true := by
  simp only [updateOrderStatus, hs, if_true, h]
  rfl

/-- C8 witness: `sampleDeliveredOrder` has status `delivered`, and updating
it back to `placed` succeeds. -/
theorem updateOrderStatus_regression_allowed_witness :
    sampleDeliveredOrder.status = "delivered" ∧
    ((updateOrderStatus sampleDB 260 "ORD200" "placed").1).isOk = true :=
  ⟨by decide,
   updateOrderStatus_regression_allowed sampleDB 260 "ORD200" sampleDeliveredOrder
     "placed" (by decide) (by decide)⟩

/-- C6: assigning a rider fails with ValidationError when the body carries no
(truthy) riderId, and — when a riderId is supplied — with NotFoundError when
the order does not exist; in both cases the entire store is unchanged (no
write on any record). -/
theorem assignRider_failure_noWrite (st : DBState) (now : Nat) (id : String)
    (rid rname : Option String) :
    (jsTruthyStr rid = false →
      assignRider st now id rid rname =
        (.error (.ValidationError "Rider ID is required"), st)) ∧
    (jsTruthyStr rid = true → getItem st.orders id = none →
      assignRider st now id rid rname =
        (.error (.NotFoundError "Order not found"), st)) := by
  constructor
  · intro hr
    simp [assignRider, hr]
  · intro hr hg
    simp [assignRider, hr, hg]

/-- C6 witness: a missing riderId is rejected as ValidationError, and a
present riderId against a nonexistent order id is rejected as NotFoundError;
`sampleDB` is untouched in both cases. -/
theorem assignRider_failure_noWrite_witness :
    assignRider sampleDB 40 "ORD100" none none =
      (.error (.ValidationError "Rider ID is required"), sampleDB) ∧
    assignRider sampleDB 40 "ORD999" (some "RDR300") none =
      (.error (.NotFoundError "Order not found"), sampleDB) :=
  ⟨(assignRider_failure_noWrite sampleDB 40 "ORD100" none none).1 rfl,
   (assignRider_failure_noWrite sampleDB 40 "ORD999" (some "RDR300") none).2
     (by decide) (by decide)⟩

/-- C4: updating an existing order to `delivered` stamps `deliveredAt` with
the current time (non-null, and ≥ createdAt whenever the clock has not gone
backwards since creation); updating to any other valid status leaves
`deliveredAt` at its prior value and touches only `status` and `updatedAt`
(expressed by the record-update form of the result). -/
theorem updateOrderStatus_deliveredAt_rule (st : DBState) (now : Nat)
    (id : String) (o : OrderRec) (h : getItem st.orders id = some o)
    (hclock : o.createdAt ≤ now) :
    ((updateOrderStatus st now id "delivered").1 =
        .ok { o with status := "delivered", updatedAt := now,
                     deliveredAt := some now } ∧
      ({ o with status := "delivered", updatedAt := now,
                deliveredAt := some now } : OrderRec).deliveredAt ≠ none ∧
      getItem (updateOrderStatus st now id "delivered").2.orders id =
        some { o with status := "delivered", updatedAt := now,
                      deliveredAt := some now } ∧
      o.createdAt ≤ now) ∧
    (∀ s ∈ ORDER_STATUSES, s ≠ "delivered" →
      (updateOrderStatus st now id s).1 =
        .ok { o with status := s, updatedAt := now } ∧
      getItem (updateOrderStatus st now id s).2.orders id =
        some { o with status := s, updatedAt := now }) := by
  have hmem : ("delivered" : String) ∈ ORDER_STATUSES := by decide
  refine ⟨⟨?_, by simp, ?_, hclock⟩, ?_⟩
  · simp [updateOrderStatus, hmem, h]
  · simp [updateOrderStatus, hmem, h, getItem_updItem_self]
  · intro s hs hne
    have hcases : s = "placed" ∨ s = "inProgress" ∨ s = "delivered" ∨
        s = "cancelled" := by simpa [ORDER_STATUSES] using hs
    rcases hcases with rfl | rfl | rfl | rfl
    · exact ⟨by simp [updateOrderStatus, h, ORDER_STATUSES],
        by simp [updateOrderStatus, h, ORDER_STATUSES, getItem_updItem_self]⟩
    · exact ⟨by simp [updateOrderStatus, h, ORDER_STATUSES],
        by simp [updateOrderStatus, h, ORDER_STATUSES, getItem_updItem_self]⟩
    · exact absurd rfl hne
    · exact ⟨by simp [updateOrderStatus, h, ORDER_STATUSES],
        by simp [updateOrderStatus, h, ORDER_STATUSES, getItem_updItem_self]⟩

/-- C4 witness: delivering `sampleOrder` at time 130 stamps
`deliveredAt = 130 ≥ createdAt = 100`, while cancelling it leaves
`deliveredAt = none`. -/
theorem updateOrderStatus_deliveredAt_rule_witness :
    (updateOrderStatus sampleDB 130 "ORD100" "delivered").1 =
      .ok { sampleOrder with status := "delivered", updatedAt := 130,
                             deliveredAt := some 130 } ∧
    (updateOrderStatus sampleDB 130 "ORD100" "cancelled").1 =
      .ok { sampleOrder with status := "cancelled", updatedAt := 130 } := by
  have hmain :=
    updateOrderStatus_deliveredAt_rule sampleDB 130 "ORD100" sampleOrder
      (by decide) (by decide)
  exact ⟨hmain.1.1, (hmain.2 "cancelled" (by decide) (by decide)).1⟩

/-- C5: a successful rider assignment sets order.riderId to the supplied id,
order.riderName to the supplied name or "Assigned Rider" when not supplied,
status to `inProgress` and updatedAt to now (all other order fields frozen by
the record-update form); it writes nothing to the riders or users tables, and
its outcome does not read the Rider Directory (the result is identical under
any riders table, so no rider-existence or availability check happens). -/
theorem assignRider_success_frame (st : DBState) (now : Nat) (id : String)
    (rid rname : Option String) (o : OrderRec)
    (hr : jsTruthyStr rid = true) (h : getItem st.orders id = some o) :
    (assignRider st now id rid rname).1 =
      .ok { o with riderId := rid,
                   riderName := some (jsOrStr rname "Assigned Rider"),
                   status := "inProgress", updatedAt := now } ∧
    (rname = none → jsOrStr rname "Assigned Rider" = "Assigned Rider") ∧
    (∀ n, rname = some n → n ≠ "" → jsOrStr rname "Assigned Rider" = n) ∧
    getItem (assignRider st now id rid rname).2.orders id =
      some { o with riderId := rid,
                    riderName := some (jsOrStr rname "Assigned Rider"),
                    status := "inProgress", updatedAt := now } ∧
    (assignRider st now id rid rname).2.riders = st.riders ∧
    (assignRider st now id rid rname).2.users = st.users ∧
    (∀ riders2, (assignRider { st with riders := riders2 } now id rid rname).1 =
      (assignRider st now id rid rname).1) := by
  refine ⟨?_, ?_, ?_, ?_, ?_, ?_, ?_⟩
  · simp [assignRider, hr, h]
  · intro hn; simp [jsOrStr, hn]
  · intro n hn hne; simp [jsOrStr, hn, hne]
  · simp [assignRider, hr, h, getItem_updItem_self]
  · simp [assignRider, hr, h]
  · simp [assignRider, hr, h]
  · intro riders2; simp [assignRider, hr, h]

/-- C5 witness: assigning rider "RDR300" with no name to `sampleOrder` in a
store whose Rider Directory is empty still succeeds, uses the placeholder
name, moves the order to `inProgress`, and leaves the (empty) riders table
empty. -/
theorem assignRider_success_frame_witness :
    (assignRider { sampleDB with riders := [] } 42 "ORD100" (some "RDR300")
        none).1 =
      .ok { sampleOrder with riderId := some "RDR300",
                             riderName := some "Assigned Rider",
                             status := "inProgress", updatedAt := 42 } ∧
    (assignRider { sampleDB with riders := [] } 42 "ORD100" (some "RDR300")
        none).2.riders = ([] : List (String × RiderRec)) := by
  have hmain :=
    assignRider_success_frame { sampleDB with riders := [] } 42 "ORD100"
      (some "RDR300") none sampleOrder (by decide) (by decide)
  refine ⟨?_, hmain.2.2.2.2.1⟩
  have hdef := hmain.1
  simpa [jsOrStr] using hdef

/-- C2: for an existing rider whose stored status is `on-delivery`, updating
to `available` or `offline` clears currentOrderId and adds exactly 1 to
totalDeliveries; a second `available`/`offline` update, issued once the
stored status is no longer `on-delivery`, leaves totalDeliveries unchanged —
the increment keys off the prior stored status, not the requested one. -/
theorem updateRiderStatus_deliveryCount (st : DBState) (now now2 : Nat)
    (id : String) (r : RiderRec) (s s2 : String) (cid cid2 : Option String)
    (h : getItem st.riders id = some r) (hr : r.status = "on-delivery")
    (hs : s = "available" ∨ s = "offline")
    (hs2 : s2 = "available" ∨ s2 = "offline") :
    ∃ r1, (updateRiderStatus st now id s cid).1 = .ok r1 ∧
      r1.currentOrderId = none ∧
      r1.totalDeliveries = r.totalDeliveries + 1 ∧
      getItem (updateRiderStatus st now id s cid).2.riders id = some r1 ∧
      ∃ r2, (updateRiderStatus (updateRiderStatus st now id s cid).2 now2 id s2
          cid2).1 = .ok r2 ∧
        r2.totalDeliveries = r1.totalDeliveries := by
  have hmem : s ∈ RIDER_STATUSES := by
    rcases hs with rfl | rfl <;> decide
  have hmem2 : s2 ∈ RIDER_STATUSES := by
    rcases hs2 with rfl | rfl <;> decide
  have hnod : ¬ s = "on-delivery" := by
    rcases hs with rfl | rfl <;> decide
  have hnod2 : ¬ s2 = "on-delivery" := by
    rcases hs2 with rfl | rfl <;> decide
  have e1 : (updateRiderStatus st now id s cid).1 = .ok { r with status := s, updatedAt := now, currentOrderId := none, totalDeliveries := r.totalDeliveries + 1 } := by
    simp [updateRiderStatus, hmem, h, hnod, hs, hr]
  have hget2 : getItem (updateRiderStatus st now id s cid).2.riders id = some { r with status := s, updatedAt := now, currentOrderId := none, totalDeliveries := r.totalDeliveries + 1 } := by
    simp [updateRiderStatus, hmem, h, hnod, hs, hr, getItem_updItem_self]
  have e2gen : ∀ st1 : DBState, getItem st1.riders id = some { r with status := s, updatedAt := now, currentOrderId := none, totalDeliveries := r.totalDeliveries + 1 } → (updateRiderStatus st1 now2 id s2 cid2).1 = .ok { r with status := s2, updatedAt := now2, currentOrderId := none, totalDeliveries := r.totalDeliveries + 1 } := by
    intro st1 hg
    simp [updateRiderStatus, hmem2, hg, hnod2, hnod, hs2]
  exact ⟨_, e1, rfl, rfl, hget2, _, e2gen _ hget2, rfl⟩

/-- C7: every valid order creation yields a record with status `placed`,
riderId and riderName null, deliveredAt null, an identifier `ORD<now>`, and
totalAmount the numeric parse of the input amount; the record is written to
the orders table under its id. -/
theorem createOrder_valid_shape (st : DBState) (now : Nat) (req : CreateOrderReq)
    (items : List LineItem) (customer : CustomerReq) (amt : ℚ)
    (hi : req.items = some items) (hc : req.customer = some customer)
    (ht : req.totalAmount = some amt) (ha : ¬ amt = 0)
    (hn : jsTruthyStr customer.name = true)
    (hp : jsTruthyStr customer.phone = true) :
    ∃ o, (createOrder st now req).1 = .ok o ∧
      o.status = "placed" ∧ o.riderId = none ∧ o.riderName = none ∧
      o.deliveredAt = none ∧ o.id = "ORD" ++ toString now ∧
      o.totalAmount = parseFloatNum amt ∧
      getItem (createOrder st now req).2.orders o.id = some o := by
  have hred : createOrder st now req = (.ok { id := "ORD" ++ toString now, items := items, customer := { name := customer.name.getD "", phone := customer.phone.getD "", email := jsOrStr customer.email "", address := jsOrStr customer.address (jsOrStr req.deliveryAddress "") }, status := "placed", riderId := none, riderName := none, totalAmount := parseFloatNum amt, paymentMethod := jsOrStr req.paymentMethod "Cash", notes := jsOrStr req.notes "", createdAt := now, updatedAt := now, deliveredAt := none }, { st with orders := putItem st.orders ("ORD" ++ toString now) { id := "ORD" ++ toString now, items := items, customer := { name := customer.name.getD "", phone := customer.phone.getD "", email := jsOrStr customer.email "", address := jsOrStr customer.address (jsOrStr req.deliveryAddress "") }, status := "placed", riderId := none, riderName := none, totalAmount := parseFloatNum amt, paymentMethod := jsOrStr req.paymentMethod "Cash", notes := jsOrStr req.notes "", createdAt := now, updatedAt := now, deliveredAt := none } }) := by
    simp [createOrder, hi, hc, ht, ha, hn, hp]
  have h1 : (createOrder st now req).1 = .ok { id := "ORD" ++ toString now, items := items, customer := { name := customer.name.getD "", phone := customer.phone.getD "", email := jsOrStr customer.email "", address := jsOrStr customer.address (jsOrStr req.deliveryAddress "") }, status := "placed", riderId := none, riderName := none, totalAmount := parseFloatNum amt, paymentMethod := jsOrStr req.paymentMethod "Cash", notes := jsOrStr req.notes "", createdAt := now, updatedAt := now, deliveredAt := none } := by
    rw [hred]
  refine ⟨_, h1, rfl, rfl, rfl, rfl, rfl, rfl, ?_⟩
  rw [hred]
  exact getItem_putItem_self _ _ _

/-- C7 witness: the sample valid creation at time 7 produces a `placed`
order with the stated null fields and totalAmount 150. -/
theorem createOrder_valid_shape_witness :
    sampleCreateReq.totalAmount = some 150 ∧
    ∃ o, (createOrder emptyDB 7 sampleCreateReq).1 = .ok o ∧
      o.status = "placed" ∧ o.riderId = none ∧ o.riderName = none ∧
      o.deliveredAt = none ∧ o.id = "ORD" ++ toString 7 ∧
      o.totalAmount = parseFloatNum 150 ∧
      getItem (createOrder emptyDB 7 sampleCreateReq).2.orders o.id = some o :=
  ⟨rfl, createOrder_valid_shape emptyDB 7 sampleCreateReq _ _ 150 rfl rfl rfl
    (by decide) (by decide) (by decide)⟩

/-- C3 counterexample: the claim says an empty items list fails with
ValidationError and no order record is written — but JavaScript's `!items`
is false for the (truthy) empty array, so this request is accepted and an
order is persisted. -/
theorem createOrder_emptyItems_counterexample :
    cexEmptyItemsReq.items = some [] ∧
    ((createOrder emptyDB 7 cexEmptyItemsReq).1).isOk = true ∧
    (getItem (createOrder emptyDB 7 cexEmptyItemsReq).2.orders
      "ORD7").isSome = true := by
  refine ⟨rfl, ?_, ?_⟩ <;> decide

/-- C3 (amended): the create-order validation rejects — with ValidationError
and no write — exactly the JS-falsy shapes: items absent, customer absent,
totalAmount absent or zero, or a customer lacking a truthy name or phone.
(An empty items array and a nonzero — e.g. negative — amount pass.) -/
theorem createOrder_validation_amended (st : DBState) (now : Nat)
    (req : CreateOrderReq)
    (h : req.items = none ∨ req.customer = none ∨ req.totalAmount = none ∨
      req.totalAmount = some 0 ∨
      (∃ c, req.customer = some c ∧
        (jsTruthyStr c.name = false ∨ jsTruthyStr c.phone = false))) :
    (∃ m, (createOrder st now req).1 = .error (.ValidationError m)) ∧
    (createOrder st now req).2 = st := by
  obtain ⟨is, cs, ta, pm, da, no⟩ := req
  cases is with
  | none => exact ⟨⟨_, rfl⟩, rfl⟩
  | some items =>
    cases cs with
    | none => exact ⟨⟨_, rfl⟩, rfl⟩
    | some c =>
      cases ta with
      | none => exact ⟨⟨_, rfl⟩, rfl⟩
      | some amt =>
        have h' : amt = 0 ∨ jsTruthyStr c.name = false ∨
            jsTruthyStr c.phone = false := by
          simpa using h
        by_cases hz : amt = 0
        · exact ⟨⟨"Items, customer info, and total amount are required",
            by simp [createOrder, hz]⟩, by simp [createOrder, hz]⟩
        · have hcf : ¬ (jsTruthyStr c.name ∧ jsTruthyStr c.phone) := by
            rcases h' with h0 | h1 | h1
            · exact absurd h0 hz
            · simp [h1]
            · simp [h1]
          exact ⟨⟨"Customer name and phone are required",
            by simp [createOrder, hz, hcf]⟩, by simp [createOrder, hz, hcf]⟩

/-- C3 amended witness: a request with no totalAmount is rejected with
ValidationError and leaves the store unchanged. -/
theorem createOrder_validation_amended_witness :
    (∃ m, (createOrder sampleDB 7 { sampleCreateReq with totalAmount := none }).1 =
      .error (.ValidationError m)) ∧
    (createOrder sampleDB 7 { sampleCreateReq with totalAmount := none }).2 =
      sampleDB :=
  createOrder_validation_amended sampleDB 7
    { sampleCreateReq with totalAmount := none }
    (Or.inr (Or.inr (Or.inl rfl)))

/-- C1: dual-write rider registration with a well-formed request: when the
phone already exists in the users table the call fails with ConflictError and
the whole store — in particular the Rider Directory — is unchanged; whenever
the call fails (any error) nothing is persisted, and when it succeeds both
the identity record and the rider profile are present (the transactional
all-or-nothing behavior of the two conditional writes). -/
theorem registerRider_dualWrite (st : DBState) (now : Nat)
    (req : RegisterRiderReq) (hv : registerReqValid req = true) :
    ((getItem st.users (req.phone.getD "")).isSome = true →
      (registerRider st now req).1 =
        .error (.ConflictError "User with this phone number already exists") ∧
      (registerRider st now req).2 = st) ∧
    (∀ e, (registerRider st now req).1 = .error e →
      (registerRider st now req).2 = st) ∧
    (∀ u r, (registerRider st now req).1 = .ok (u, r) →
      getItem (registerRider st now req).2.users u.phone = some u ∧
      getItem (registerRider st now req).2.riders r.id = some r) := by
  cases hg : getItem st.users (req.phone.getD "") with
  | some u0 =>
    refine ⟨fun _ => ⟨?_, ?_⟩, fun e _ => ?_, fun u r hok => ?_⟩
    · simp [registerRider, hv, hg]
    · simp [registerRider, hv, hg]
    · simp [registerRider, hv, hg]
    · simp [registerRider, hv, hg] at hok
  | none =>
    have htr : (registerRider st now req).1 = .ok ({ phone := req.phone.getD "", name := req.name.getD "", password := hashPassword (req.password.getD ""), role := "rider", riderId := some ("RDR" ++ toString now), isActive := true, email := if jsTruthyStr req.email then req.email else none, createdAt := now, updatedAt := now }, { id := "RDR" ++ toString now, name := req.name.getD "", phone := req.phone.getD "", vehicleType := req.vehicleType.getD "", vehicleNumber := req.vehicleNumber.getD "", status := "offline", currentOrderId := none, totalDeliveries := 0, rating := 5, isActive := true, fcmToken := none, email := if jsTruthyStr req.email then req.email else none, joinedAt := now, updatedAt := now }) ∧ (registerRider st now req).2 = { st with users := putItem st.users (req.phone.getD "") { phone := req.phone.getD "", name := req.name.getD "", password := hashPassword (req.password.getD ""), role := "rider", riderId := some ("RDR" ++ toString now), isActive := true, email := if jsTruthyStr req.email then req.email else none, createdAt := now, updatedAt := now }, riders := putItem st.riders ("RDR" ++ toString now) { id := "RDR" ++ toString now, name := req.name.getD "", phone := req.phone.getD "", vehicleType := req.vehicleType.getD "", vehicleNumber := req.vehicleNumber.getD "", status := "offline", currentOrderId := none, totalDeliveries := 0, rating := 5, isActive := true, fcmToken := none, email := if jsTruthyStr req.email then req.email else none, joinedAt := now, updatedAt := now } } := by
      constructor
      · simp [registerRider, hv, hg, transactPutUserAndRider]
      · simp [registerRider, hv, hg, transactPutUserAndRider]
    refine ⟨fun hsome => ?_, fun e he => ?_, fun u r hok => ?_⟩
    · exact absurd hsome (by simp)
    · rw [htr.1] at he
      exact absurd he (by simp)
    · rw [htr.1] at hok
      injection hok with hpair
      injection hpair with hu hr
      subst hu
      subst hr
      rw [htr.2]
      exact ⟨getItem_putItem_self _ _ _, getItem_putItem_self _ _ _⟩

/-- C1 witness: registering `sampleRegReq` a second time, after a first
successful registration with the same phone, fails with ConflictError and
leaves the whole store — Rider Directory included — unchanged. -/
theorem registerRider_dualWrite_witness :
    (registerRider dbAfterFirstReg 60 sampleRegReq).1 =
      .error (.ConflictError "User with this phone number already exists") ∧
    (registerRider dbAfterFirstReg 60 sampleRegReq).2 = dbAfterFirstReg :=
  (registerRider_dualWrite dbAfterFirstReg 60 sampleRegReq (by decide)).1
    (by decide)

/-- C2 witness: `sampleRider` is `on-delivery` with 3 deliveries; going
`offline` yields 4 deliveries and no currentOrderId, and a repeat `offline`
update stays at 4. -/
theorem updateRiderStatus_deliveryCount_witness :
    sampleRider.status = "on-delivery" ∧ sampleRider.totalDeliveries = 3 ∧
    ∃ r1, (updateRiderStatus sampleDB 20 "RDR300" "offline" none).1 = .ok r1 ∧
      r1.currentOrderId = none ∧ r1.totalDeliveries = 4 ∧
      ∃ r2, (updateRiderStatus (updateRiderStatus sampleDB 20 "RDR300" "offline"
          none).2 30 "RDR300" "offline" none).1 = .ok r2 ∧
        r2.totalDeliveries = 4 := by
  obtain ⟨r1, h1, h2, h3, _, r2, h5, h6⟩ :=
    updateRiderStatus_deliveryCount sampleDB 20 30 "RDR300" sampleRider
      "offline" "offline" none none (by decide) (by decide) (Or.inr rfl)
      (Or.inr rfl)
  have h3' : r1.totalDeliveries = 4 := by
    rw [h3]; decide
  exact ⟨rfl, rfl, r1, h1, h2, h3', r2, h5, by rw [h6, h3']⟩

end Backend
